import Mathlib

/-!
Verification development for the `ptp-trace` passive PTP/gPTP observer.

The Rust sources (`src/types.rs`, `src/ptp.rs`) are shallowly embedded here:

* raw packet bytes are `List Nat` (each entry one byte, big-endian multi-byte
  fields assembled exactly as the source does);
* fallible Rust `TryFrom` decoders become functions into `DResult`, whose
  `crash` constructor models a Rust panic (an out-of-bounds slice expression
  such as `&data[..34]` on a shorter buffer), while `err` models the
  `anyhow::Error` return path with the source's message string;
* Rust `u8`/`u16`/`u32`/`u64` fields are `Nat` (decoders produce in-range
  values by construction; wrap-around is written out with `% 2 ^ w` where the
  source's arithmetic can wrap, namely in the `u128 -> u32` cast of
  `rtp_samples`);
* `Instant` / `Duration` / `SystemTime` are modelled as milliseconds (`Nat`),
  passed explicitly where the source calls `Instant::now()`;
* the `f32` confidence score is modelled as `ℚ`: every confidence value the
  program computes (0.0, 1.0, and `(age_ms as f32 / 5000.0).clamp(0.0, 0.9)`
  at the concrete ages the claims mention) is exactly representable, so the
  rational model agrees with the `f32` computation on everything stated here.
-/

/-! ## Byte-level helpers -/

/-- Result of a fallible Rust computation: `ok`, a structured `anyhow` error
(`err`), or a panic (`crash`) such as an out-of-range slice index. -/
inductive DResult (α : Type) where
  | ok (a : α)
  | err (msg : String)
  | crash (msg : String)
deriving Repr, DecidableEq

instance : Monad DResult where
  pure := DResult.ok
  bind
    | DResult.ok a, f => f a
    | DResult.err m, _ => DResult.err m
    | DResult.crash m, _ => DResult.crash m

/-- Rust slice expression `&data[a..b]`: panics unless `a ≤ b ≤ data.len()`. -/
def rustSlice (data : List Nat) (a b : Nat) : DResult (List Nat) :=
  if a ≤ b ∧ b ≤ data.length then DResult.ok ((data.drop a).take (b - a))
  else DResult.crash "slice index out of range"

/-- `data[i]` under an already-established bounds guard (`getD` with default 0;
every use below is dominated by a length check, as in the source). -/
def byteAt (data : List Nat) (i : Nat) : Nat := data.getD i 0

/-- Big-endian assembly of bytes `data[lo..lo+n]` into a `Nat`, mirroring
`uNN::from_be_bytes`. -/
def beBytes (data : List Nat) (lo n : Nat) : Nat :=
  (List.range n).foldl (fun acc k => acc * 256 + byteAt data (lo + k)) 0

/-- Signed big-endian read of `n` bytes (two's complement), mirroring
`iNN::from_be_bytes`. -/
def beBytesSigned (data : List Nat) (lo n : Nat) : Int :=
  let u := beBytes data lo n
  if u < 2 ^ (8 * n - 1) then (u : Int) else (u : Int) - 2 ^ (8 * n)

/-- Rust `u8 as i8` cast. -/
def asI8 (b : Nat) : Int := if b < 128 then (b : Int) else (b : Int) - 256

/-! ## `src/types.rs`: wire data model -/

/-- `PtpTimestamp { seconds: u64, nanoseconds: u32 }`. -/
structure PtpTimestamp where
  seconds : Nat
  nanoseconds : Nat
deriving Repr, DecidableEq

/-- `PtpTimestamp::total_nanoseconds`: `(seconds as u128) * 1_000_000_000 +
nanoseconds as u128`, computed in `u128` (hence the `% 2 ^ 128`). -/
def PtpTimestamp.total_nanoseconds (t : PtpTimestamp) : Nat :=
  (t.seconds * 1000000000 + t.nanoseconds) % 2 ^ 128

/-- `PtpTimestamp::rtp_samples`: `u128` multiply and divide, then `as u32`
truncating cast (the `% 2 ^ 32`). -/
def PtpTimestamp.rtp_samples (t : PtpTimestamp) (samplerate : Nat) : Nat :=
  (t.total_nanoseconds * samplerate % 2 ^ 128) / 1000000000 % 2 ^ 32

/-- `PtpTimestamp::try_from(&[u8])`: exactly 10 bytes, 48-bit seconds
zero-extended, 32-bit nanoseconds. -/
def PtpTimestamp.tryFrom (b : List Nat) : DResult PtpTimestamp :=
  if b.length ≠ 10 then DResult.err "Packet too short for PTP timestamp"
  else DResult.ok { seconds := beBytes b 0 6, nanoseconds := beBytes b 6 4 }

/-- `PtpMessageType` (low nibble of byte 0). -/
inductive PtpMessageType where
  | Sync | DelayReq | PDelayReq | PDelayResp | FollowUp
  | DelayResp | PDelayRespFollowUp | Announce | Signaling | Management
deriving Repr, DecidableEq

/-- `PtpMessageType::try_from(u8)`. -/
def PtpMessageType.tryFrom (v : Nat) : DResult PtpMessageType :=
  if v = 0x0 then DResult.ok .Sync
  else if v = 0x1 then DResult.ok .DelayReq
  else if v = 0x2 then DResult.ok .PDelayReq
  else if v = 0x3 then DResult.ok .PDelayResp
  else if v = 0x8 then DResult.ok .FollowUp
  else if v = 0x9 then DResult.ok .DelayResp
  else if v = 0xa then DResult.ok .PDelayRespFollowUp
  else if v = 0xb then DResult.ok .Announce
  else if v = 0xc then DResult.ok .Signaling
  else if v = 0xd then DResult.ok .Management
  else DResult.err "Unknown PTP message type"

/-- `PtpVersion`. -/
inductive PtpVersion where
  | V1 | V2
deriving Repr, DecidableEq

/-- `PtpVersion::try_from(u8)`. -/
def PtpVersion.tryFrom (v : Nat) : DResult PtpVersion :=
  if v = 0x1 then DResult.ok .V1
  else if v = 0x2 then DResult.ok .V2
  else DResult.err "Unknown PTP version"

/-- `ClockIdentity { clock_id: [u8; 8] }`; the list always has length 8 when
produced by a decoder. -/
structure ClockIdentity where
  clock_id : List Nat
deriving Repr, DecidableEq

/-- `ClockIdentity::try_from(&[u8])` (`b.try_into()?`, errors unless the slice
has exactly 8 bytes). -/
def ClockIdentity.tryFrom (b : List Nat) : DResult ClockIdentity :=
  if b.length = 8 then DResult.ok { clock_id := b }
  else DResult.err "could not convert slice to array"

/-- `PortIdentity { clock_identity, port_number: u16 }`. -/
structure PortIdentity where
  clock_identity : ClockIdentity
  port_number : Nat
deriving Repr, DecidableEq

/-- `PortIdentity::try_from(&[u8])`: clock identity from bytes 0..8, port from
bytes 8..10; the slice expressions panic if the input is shorter than 10
(every call site passes an exactly-10-byte slice). -/
def PortIdentity.tryFrom (v : List Nat) : DResult PortIdentity :=
  do
    let cb ← rustSlice v 0 8
    let ci ← ClockIdentity.tryFrom cb
    let pb ← rustSlice v 8 10
    if pb.length = 2 then
      DResult.ok { clock_identity := ci, port_number := beBytes v 8 2 }
    else DResult.crash "unwrap on Err"

/-- `PtpHeaderFlags` (IEEE 1588-2019 13.3.2.8): raw two bytes plus the 13
named booleans. -/
structure PtpHeaderFlags where
  v : List Nat
  alternate_tt_flag : Bool
  two_step_flag : Bool
  unicast_flag : Bool
  profile_specific_1 : Bool
  profile_specific_2 : Bool
  ptp_security_flag : Bool
  leap61 : Bool
  leap59 : Bool
  current_utc_offset_valid : Bool
  ptp_timescale : Bool
  time_traceable : Bool
  frequency_traceable : Bool
  sync_uncertain : Bool
deriving Repr, DecidableEq

/-- `PtpHeaderFlags::try_from(&[u8])` over the two flag bytes. -/
def PtpHeaderFlags.tryFrom (v : List Nat) : DResult PtpHeaderFlags :=
  if v.length = 2 then
    let b0 := byteAt v 0
    let b1 := byteAt v 1
    DResult.ok
      { v := v
        alternate_tt_flag := b0.testBit 0
        two_step_flag := b0.testBit 1
        unicast_flag := b0.testBit 2
        profile_specific_1 := b0.testBit 5
        profile_specific_2 := b0.testBit 6
        ptp_security_flag := b0.testBit 7
        leap61 := b1.testBit 0
        leap59 := b1.testBit 1
        current_utc_offset_valid := b1.testBit 2
        ptp_timescale := b1.testBit 3
        time_traceable := b1.testBit 4
        frequency_traceable := b1.testBit 5
        sync_uncertain := b1.testBit 6 }
  else DResult.err "could not convert slice to array"

/-- `PtpHeader`: the common 34-byte prefix. `correction_field` is the signed
64-bit value, `log_message_interval` the signed 8-bit exponent. -/
structure PtpHeader where
  message_type : PtpMessageType
  version : PtpVersion
  version_minor : Nat
  message_length : Nat
  domain_number : Nat
  sdo_id : Nat
  flags : PtpHeaderFlags
  correction_field : Int
  msg_specific : List Nat
  source_port_identity : PortIdentity
  sequence_id : Nat
  control_field : Nat
  log_message_interval : Int
deriving Repr, DecidableEq

/-- `PtpHeader::try_from(&[u8])`: rejects inputs shorter than 34 bytes before
reading any field, then parses at fixed offsets. -/
def PtpHeader.tryFrom (data : List Nat) : DResult PtpHeader :=
  if data.length < 34 then DResult.err "Packet too short for PTP header"
  else do
    let mt ← PtpMessageType.tryFrom (byteAt data 0 % 16)
    let ver ← PtpVersion.tryFrom (byteAt data 1 % 16)
    let fb ← rustSlice data 6 8
    let flags ← PtpHeaderFlags.tryFrom fb
    let spb ← rustSlice data 20 30
    let spi ← PortIdentity.tryFrom spb
    DResult.ok
      { message_type := mt
        version := ver
        version_minor := byteAt data 1 / 16
        message_length := beBytes data 2 2
        domain_number := byteAt data 4
        sdo_id := (byteAt data 0 / 16) * 256 + byteAt data 5
        flags := flags
        correction_field := beBytesSigned data 8 8
        msg_specific := (data.drop 16).take 4
        source_port_identity := spi
        sequence_id := beBytes data 30 2
        control_field := byteAt data 32
        log_message_interval := asI8 (byteAt data 33) }

/-! ## Message variants and their decoders -/

/-- `AnnounceMessage` (clock class / accuracy newtypes flattened to their
inner byte, as the source compares them by that byte). -/
structure AnnounceMessage where
  header : PtpHeader
  origin_timestamp : PtpTimestamp
  current_utc_offset : Int
  priority1 : Nat
  priority2 : Nat
  clock_class : Nat
  clock_accuracy : Nat
  offset_scaled_log_variance : Nat
  ptt_identity : ClockIdentity
  steps_removed : Nat
  time_source : Nat
deriving Repr, DecidableEq

/-- `AnnounceMessage::try_from`: minimum length 64 checked first. -/
def AnnounceMessage.tryFrom (data : List Nat) : DResult AnnounceMessage :=
  if data.length < 64 then DResult.err "Packet too short for Announce message"
  else do
    let hb ← rustSlice data 0 34
    let header ← PtpHeader.tryFrom hb
    let tb ← rustSlice data 34 44
    let ts ← PtpTimestamp.tryFrom tb
    let ib ← rustSlice data 53 61
    let ptt ← ClockIdentity.tryFrom ib
    DResult.ok
      { header := header
        origin_timestamp := ts
        current_utc_offset := beBytesSigned data 44 2
        priority1 := byteAt data 47
        clock_class := byteAt data 48
        clock_accuracy := byteAt data 49
        offset_scaled_log_variance := beBytes data 50 2
        priority2 := byteAt data 52
        ptt_identity := ptt
        steps_removed := beBytes data 61 2
        time_source := byteAt data 63 }

/-- `SyncMessage`. -/
structure SyncMessage where
  header : PtpHeader
  origin_timestamp : PtpTimestamp
deriving Repr, DecidableEq

/-- `SyncMessage::try_from`: minimum length 44 checked first. -/
def SyncMessage.tryFrom (data : List Nat) : DResult SyncMessage :=
  if data.length < 44 then DResult.err "Packet too short for Sync message"
  else do
    let hb ← rustSlice data 0 34
    let header ← PtpHeader.tryFrom hb
    let tb ← rustSlice data 34 44
    let ts ← PtpTimestamp.tryFrom tb
    DResult.ok { header := header, origin_timestamp := ts }

/-- `FollowUpMessage`. -/
structure FollowUpMessage where
  header : PtpHeader
  precise_origin_timestamp : PtpTimestamp
deriving Repr, DecidableEq

/-- `FollowUpMessage::try_from`: minimum length 44; the source reuses the
"Sync" error string here. -/
def FollowUpMessage.tryFrom (data : List Nat) : DResult FollowUpMessage :=
  if data.length < 44 then DResult.err "Packet too short for Sync message"
  else do
    let hb ← rustSlice data 0 34
    let header ← PtpHeader.tryFrom hb
    let tb ← rustSlice data 34 44
    let ts ← PtpTimestamp.tryFrom tb
    DResult.ok { header := header, precise_origin_timestamp := ts }

/-- `PDelayReqMessage`. -/
structure PDelayReqMessage where
  header : PtpHeader
  origin_timestamp : PtpTimestamp
deriving Repr, DecidableEq

/-- `PDelayReqMessage::try_from`: minimum length 54 checked first. -/
def PDelayReqMessage.tryFrom (data : List Nat) : DResult PDelayReqMessage :=
  if data.length < 54 then DResult.err "Packet too short for PDelayReq message"
  else do
    let hb ← rustSlice data 0 34
    let header ← PtpHeader.tryFrom hb
    let tb ← rustSlice data 34 44
    let ts ← PtpTimestamp.tryFrom tb
    DResult.ok { header := header, origin_timestamp := ts }

/-- `PDelayRespMessage`. -/
structure PDelayRespMessage where
  header : PtpHeader
  request_receipt_timestamp : PtpTimestamp
  requesting_port_identity : PortIdentity
deriving Repr, DecidableEq

/-- `PDelayRespMessage::try_from`: minimum length 54 checked first. -/
def PDelayRespMessage.tryFrom (data : List Nat) : DResult PDelayRespMessage :=
  if data.length < 54 then DResult.err "Packet too short for PDelayResp message"
  else do
    let hb ← rustSlice data 0 34
    let header ← PtpHeader.tryFrom hb
    let tb ← rustSlice data 34 44
    let ts ← PtpTimestamp.tryFrom tb
    let pb ← rustSlice data 44 54
    let rpi ← PortIdentity.tryFrom pb
    DResult.ok
      { header := header, request_receipt_timestamp := ts
        requesting_port_identity := rpi }

/-- `PDelayRespFollowUpMessage`. -/
structure PDelayRespFollowUpMessage where
  header : PtpHeader
  response_origin_timestamp : PtpTimestamp
  requesting_port_identity : PortIdentity
deriving Repr, DecidableEq

/-- `PDelayRespFollowUpMessage::try_from`: minimum length 54 checked first. -/
def PDelayRespFollowUpMessage.tryFrom (data : List Nat) :
    DResult PDelayRespFollowUpMessage :=
  if data.length < 54 then DResult.err "Invalid PDelayRespFollowUpMessage length"
  else do
    let hb ← rustSlice data 0 34
    let header ← PtpHeader.tryFrom hb
    let tb ← rustSlice data 34 44
    let ts ← PtpTimestamp.tryFrom tb
    let pb ← rustSlice data 44 54
    let rpi ← PortIdentity.tryFrom pb
    DResult.ok
      { header := header, response_origin_timestamp := ts
        requesting_port_identity := rpi }

/-- `DelayReqMessage`. -/
structure DelayReqMessage where
  header : PtpHeader
  origin_timestamp : PtpTimestamp
deriving Repr, DecidableEq

/-- `DelayReqMessage::try_from`: minimum length 44; the source reuses the
"PDelayRespFollowUpMessage" error string here. -/
def DelayReqMessage.tryFrom (data : List Nat) : DResult DelayReqMessage :=
  if data.length < 44 then DResult.err "Invalid PDelayRespFollowUpMessage length"
  else do
    let hb ← rustSlice data 0 34
    let header ← PtpHeader.tryFrom hb
    let tb ← rustSlice data 34 44
    let ts ← PtpTimestamp.tryFrom tb
    DResult.ok { header := header, origin_timestamp := ts }

/-- `DelayRespMessage`. -/
structure DelayRespMessage where
  header : PtpHeader
  receive_timestamp : PtpTimestamp
  requesting_port_identity : PortIdentity
deriving Repr, DecidableEq

/-- `DelayRespMessage::try_from`: minimum length 54 checked first. -/
def DelayRespMessage.tryFrom (data : List Nat) : DResult DelayRespMessage :=
  if data.length < 54 then DResult.err "Invalid DelayRespMessage length"
  else do
    let hb ← rustSlice data 0 34
    let header ← PtpHeader.tryFrom hb
    let tb ← rustSlice data 34 44
    let ts ← PtpTimestamp.tryFrom tb
    let pb ← rustSlice data 44 54
    let rpi ← PortIdentity.tryFrom pb
    DResult.ok
      { header := header, receive_timestamp := ts
        requesting_port_identity := rpi }

/-- `SignalingMessage` (TLVs unparsed, as in the source). -/
structure SignalingMessage where
  header : PtpHeader
  target_port_identity : PortIdentity
deriving Repr, DecidableEq

/-- `SignalingMessage::try_from`: minimum length 54 checked first. -/
def SignalingMessage.tryFrom (data : List Nat) : DResult SignalingMessage :=
  if data.length < 54 then DResult.err "Invalid SignalingMessage length"
  else do
    let hb ← rustSlice data 0 34
    let header ← PtpHeader.tryFrom hb
    let pb ← rustSlice data 34 44
    let tpi ← PortIdentity.tryFrom pb
    DResult.ok { header := header, target_port_identity := tpi }

/-- `ManagementMessage`. -/
structure ManagementMessage where
  header : PtpHeader
  target_port_identity : PortIdentity
  starting_boundary_hops : Nat
  boundary_hops : Nat
  action_field : Nat
deriving Repr, DecidableEq

/-- `ManagementMessage::try_from`: minimum length 54 checked first. -/
def ManagementMessage.tryFrom (data : List Nat) : DResult ManagementMessage :=
  if data.length < 54 then DResult.err "Invalid ManagementMessage length"
  else do
    let hb ← rustSlice data 0 34
    let header ← PtpHeader.tryFrom hb
    let pb ← rustSlice data 34 44
    let tpi ← PortIdentity.tryFrom pb
    DResult.ok
      { header := header, target_port_identity := tpi
        starting_boundary_hops := byteAt data 44
        boundary_hops := byteAt data 45
        action_field := byteAt data 46 % 16 }

/-- `PtpMessage`: the ten-variant discriminated union. -/
inductive PtpMessage where
  | Announce (msg : AnnounceMessage)
  | DelayReq (msg : DelayReqMessage)
  | DelayResp (msg : DelayRespMessage)
  | Sync (msg : SyncMessage)
  | PDelayReq (msg : PDelayReqMessage)
  | PDelayResp (msg : PDelayRespMessage)
  | FollowUp (msg : FollowUpMessage)
  | PDelayRespFollowup (msg : PDelayRespFollowUpMessage)
  | Signaling (msg : SignalingMessage)
  | Management (msg : ManagementMessage)
deriving Repr, DecidableEq

/-- `PtpMessage::header`. -/
def PtpMessage.header : PtpMessage → PtpHeader
  | .Announce m => m.header
  | .DelayReq m => m.header
  | .DelayResp m => m.header
  | .Sync m => m.header
  | .PDelayReq m => m.header
  | .PDelayResp m => m.header
  | .FollowUp m => m.header
  | .PDelayRespFollowup m => m.header
  | .Signaling m => m.header
  | .Management m => m.header

/-- `PtpMessage::try_from(&[u8])`: slices `&data[..34]` (panicking on shorter
input) before the header's own length check can run, rejects non-v2 versions,
then dispatches on the message-type tag; each variant decoder re-validates
its own minimum length against the original slice. -/
def PtpMessage.tryFrom (data : List Nat) : DResult PtpMessage :=
  do
    let hb ← rustSlice data 0 34
    let header ← PtpHeader.tryFrom hb
    if header.version ≠ PtpVersion.V2 then DResult.err "Unsupported PTP version"
    else
      match header.message_type with
      | .Announce => do
          let m ← AnnounceMessage.tryFrom data
          DResult.ok (PtpMessage.Announce m)
      | .DelayReq => do
          let m ← DelayReqMessage.tryFrom data
          DResult.ok (PtpMessage.DelayReq m)
      | .DelayResp => do
          let m ← DelayRespMessage.tryFrom data
          DResult.ok (PtpMessage.DelayResp m)
      | .Sync => do
          let m ← SyncMessage.tryFrom data
          DResult.ok (PtpMessage.Sync m)
      | .PDelayReq => do
          let m ← PDelayReqMessage.tryFrom data
          DResult.ok (PtpMessage.PDelayReq m)
      | .PDelayResp => do
          let m ← PDelayRespMessage.tryFrom data
          DResult.ok (PtpMessage.PDelayResp m)
      | .FollowUp => do
          let m ← FollowUpMessage.tryFrom data
          DResult.ok (PtpMessage.FollowUp m)
      | .PDelayRespFollowUp => do
          let m ← PDelayRespFollowUpMessage.tryFrom data
          DResult.ok (PtpMessage.PDelayRespFollowup m)
      | .Signaling => do
          let m ← SignalingMessage.tryFrom data
          DResult.ok (PtpMessage.Signaling m)
      | .Management => do
          let m ← ManagementMessage.tryFrom data
          DResult.ok (PtpMessage.Management m)

/-! ## `src/ptp.rs`: host state machine -/

/-- `PtpHostStateTimeTransmitter` (clock class / accuracy newtypes flattened
to their inner byte; `Instant` and timestamps as described in the header). -/
structure PtpHostStateTimeTransmitter where
  last_sync_timestamp : Option Nat
  priority1 : Option Nat
  priority2 : Option Nat
  clock_class : Option Nat
  clock_accuracy : Option Nat
  steps_removed : Option Nat
  offset_scaled_log_variance : Option Nat
  time_source : Option Nat
  ptt_identifier : Option ClockIdentity
  last_announce_origin_timestamp : Option PtpTimestamp
  last_sync_origin_timestamp : Option PtpTimestamp
  last_followup_origin_timestamp : Option PtpTimestamp
  current_utc_offset : Option Int
  is_bmca_winner : Bool
deriving Repr, DecidableEq

/-- `PtpHostStateTimeTransmitter::default()`. -/
def PtpHostStateTimeTransmitter.default : PtpHostStateTimeTransmitter :=
  { last_sync_timestamp := none, priority1 := none, priority2 := none
    clock_class := none, clock_accuracy := none, steps_removed := none
    offset_scaled_log_variance := none, time_source := none
    ptt_identifier := none, last_announce_origin_timestamp := none
    last_sync_origin_timestamp := none, last_followup_origin_timestamp := none
    current_utc_offset := none, is_bmca_winner := false }

/-- `PtpHostStateTimeTransmitter::update_from_announce`. -/
def PtpHostStateTimeTransmitter.update_from_announce
    (s : PtpHostStateTimeTransmitter) (msg : AnnounceMessage) :
    PtpHostStateTimeTransmitter :=
  { s with
    priority1 := some msg.priority1
    priority2 := some msg.priority2
    clock_class := some msg.clock_class
    clock_accuracy := some msg.clock_accuracy
    offset_scaled_log_variance := some msg.offset_scaled_log_variance
    steps_removed := some msg.steps_removed
    time_source := some msg.time_source
    ptt_identifier := some msg.ptt_identity
    current_utc_offset := some msg.current_utc_offset
    last_announce_origin_timestamp := some msg.origin_timestamp }

/-- `PtpHostStateTimeTransmitter::from_announce`. -/
def PtpHostStateTimeTransmitter.from_announce (msg : AnnounceMessage) :
    PtpHostStateTimeTransmitter :=
  PtpHostStateTimeTransmitter.default.update_from_announce msg

/-- `PtpHostStateTimeTransmitter::update_from_sync` (`now` is the
`Instant::now()` the source takes inside the function). -/
def PtpHostStateTimeTransmitter.update_from_sync
    (s : PtpHostStateTimeTransmitter) (msg : SyncMessage) (now : Nat) :
    PtpHostStateTimeTransmitter :=
  { s with
    last_sync_origin_timestamp := some msg.origin_timestamp
    last_sync_timestamp := some now }

/-- `PtpHostStateTimeTransmitter::from_sync`. -/
def PtpHostStateTimeTransmitter.from_sync (msg : SyncMessage) (now : Nat) :
    PtpHostStateTimeTransmitter :=
  PtpHostStateTimeTransmitter.default.update_from_sync msg now

/-- `PtpHostStateTimeTransmitter::update_from_follow_up`. -/
def PtpHostStateTimeTransmitter.update_from_follow_up
    (s : PtpHostStateTimeTransmitter) (msg : FollowUpMessage) :
    PtpHostStateTimeTransmitter :=
  { s with last_followup_origin_timestamp := some msg.precise_origin_timestamp }

/-- `PtpHostStateTimeTransmitter::from_follow_up`. -/
def PtpHostStateTimeTransmitter.from_follow_up (msg : FollowUpMessage) :
    PtpHostStateTimeTransmitter :=
  PtpHostStateTimeTransmitter.default.update_from_follow_up msg

/-- Rust lexicographic `cmp` on byte slices / arrays (`[u8; 8]::cmp`). -/
def compareBytes : List Nat → List Nat → Ordering
  | [], [] => .eq
  | [], _ :: _ => .lt
  | _ :: _, [] => .gt
  | a :: as', b :: bs' =>
    match compare a b with
    | .eq => compareBytes as' bs'
    | o => o

/-- One criterion of `compare_for_bmca`: the source's
`if let (Some, Some) { match cmp { Equal => fall through, o => return o } }
else if some/none { return Less } else if none/some { return Greater }`
early-return chain, with `none` meaning "fall through to the next
criterion". -/
def bmcaCriterion (x y : Option Nat) : Option Ordering :=
  match x, y with
  | some a, some b =>
    match compare a b with
    | .eq => none
    | o => some o
  | some _, none => some .lt
  | none, some _ => some .gt
  | none, none => none

/-- `PtpHostStateTimeTransmitter::compare_for_bmca`: priority1, clock class,
clock accuracy, offset-scaled log variance, priority2, then clock-identity
bytes as the final tiebreaker. -/
def PtpHostStateTimeTransmitter.compare_for_bmca
    (s other : PtpHostStateTimeTransmitter)
    (our_clock_id other_clock_id : ClockIdentity) : Ordering :=
  match bmcaCriterion s.priority1 other.priority1 with
  | some r => r
  | none =>
  match bmcaCriterion s.clock_class other.clock_class with
  | some r => r
  | none =>
  match bmcaCriterion s.clock_accuracy other.clock_accuracy with
  | some r => r
  | none =>
  match bmcaCriterion s.offset_scaled_log_variance other.offset_scaled_log_variance with
  | some r => r
  | none =>
  match bmcaCriterion s.priority2 other.priority2 with
  | some r => r
  | none => compareBytes our_clock_id.clock_id other_clock_id.clock_id

/-- `PtpHostStateTimeReceiver` (confidence as `ℚ`, see header comment). -/
structure PtpHostStateTimeReceiver where
  last_delay_response_origin_timestamp : Option PtpTimestamp
  last_pdelay_response_origin_timestamp : Option PtpTimestamp
  last_pdelay_follow_up_timestamp : Option PtpTimestamp
  selected_transmitter_identity : Option ClockIdentity
  selected_transmitter_confidence : ℚ
deriving Repr, DecidableEq

/-- `PtpHostStateTimeReceiver::default()`: confidence starts at 0.0. -/
def PtpHostStateTimeReceiver.default : PtpHostStateTimeReceiver :=
  { last_delay_response_origin_timestamp := none
    last_pdelay_response_origin_timestamp := none
    last_pdelay_follow_up_timestamp := none
    selected_transmitter_identity := none
    selected_transmitter_confidence := 0 }

/-- Rust `f32::clamp(lo, hi)`: `lo` if below, `hi` if above, else itself. -/
def ratClamp (x lo hi : ℚ) : ℚ := if x < lo then lo else if x > hi then hi else x

/-- `PtpHostStateTimeReceiver::update_from_recent_sync_sender`: only when the
existing confidence is `< 1.0`, retarget to the recent sync sender with
confidence `(age_ms / 5000.0).clamp(0.0, 0.9)`. -/
def PtpHostStateTimeReceiver.update_from_recent_sync_sender
    (s : PtpHostStateTimeReceiver) (recent_sync_sender : ClockIdentity)
    (ageMs : Nat) : PtpHostStateTimeReceiver :=
  if s.selected_transmitter_confidence < 1 then
    { s with
      selected_transmitter_identity := some recent_sync_sender
      selected_transmitter_confidence := ratClamp ((ageMs : ℚ) / 5000) 0 (9 / 10) }
  else s

/-- `PtpHostStateTimeReceiver::from_recent_sync_sender`. -/
def PtpHostStateTimeReceiver.from_recent_sync_sender
    (recent_sync_sender : ClockIdentity) (ageMs : Nat) :
    PtpHostStateTimeReceiver :=
  PtpHostStateTimeReceiver.default.update_from_recent_sync_sender
    recent_sync_sender ageMs

/-- `PtpHostStateTimeReceiver::update_from_delay_resp`: records the receive
timestamp, selects the responding sender, confidence exactly 1.0. -/
def PtpHostStateTimeReceiver.update_from_delay_resp
    (s : PtpHostStateTimeReceiver) (msg : DelayRespMessage) :
    PtpHostStateTimeReceiver :=
  { s with
    last_delay_response_origin_timestamp := some msg.receive_timestamp
    selected_transmitter_identity :=
      some msg.header.source_port_identity.clock_identity
    selected_transmitter_confidence := 1 }

/-- `PtpHostStateTimeReceiver::from_delay_resp`. -/
def PtpHostStateTimeReceiver.from_delay_resp (msg : DelayRespMessage) :
    PtpHostStateTimeReceiver :=
  PtpHostStateTimeReceiver.default.update_from_delay_resp msg

/-- `PtpHostStateTimeReceiver::update_from_pdelay_resp`: records the
request-receipt timestamp only; confidence and selection are untouched. -/
def PtpHostStateTimeReceiver.update_from_pdelay_resp
    (s : PtpHostStateTimeReceiver) (msg : PDelayRespMessage) :
    PtpHostStateTimeReceiver :=
  { s with
    last_pdelay_response_origin_timestamp := some msg.request_receipt_timestamp }

/-- `PtpHostStateTimeReceiver::from_pdelay_resp`. -/
def PtpHostStateTimeReceiver.from_pdelay_resp (msg : PDelayRespMessage) :
    PtpHostStateTimeReceiver :=
  PtpHostStateTimeReceiver.default.update_from_pdelay_resp msg

/-- `PtpHostStateTimeReceiver::update_from_pdelay_resp_follow_up`: records the
response-origin timestamp only; confidence and selection are untouched. -/
def PtpHostStateTimeReceiver.update_from_pdelay_resp_follow_up
    (s : PtpHostStateTimeReceiver) (msg : PDelayRespFollowUpMessage) :
    PtpHostStateTimeReceiver :=
  { s with
    last_pdelay_follow_up_timestamp := some msg.response_origin_timestamp }

/-- `PtpHostStateTimeReceiver::from_pdelay_resp_follow_up`. -/
def PtpHostStateTimeReceiver.from_pdelay_resp_follow_up
    (msg : PDelayRespFollowUpMessage) : PtpHostStateTimeReceiver :=
  PtpHostStateTimeReceiver.default.update_from_pdelay_resp_follow_up msg

/-- `PtpHostState`: the three-way role tag. -/
inductive PtpHostState where
  | Listening
  | TimeTransmitter (s : PtpHostStateTimeTransmitter)
  | TimeReceiver (s : PtpHostStateTimeReceiver)
deriving Repr, DecidableEq

/-- `PtpHostState::update_from_announce`: merge if already a transmitter,
replace wholesale otherwise. -/
def PtpHostState.update_from_announce (st : PtpHostState)
    (msg : AnnounceMessage) : PtpHostState :=
  match st with
  | .TimeTransmitter s => .TimeTransmitter (s.update_from_announce msg)
  | _ => .TimeTransmitter (PtpHostStateTimeTransmitter.from_announce msg)

/-- `PtpHostState::update_from_sync`. -/
def PtpHostState.update_from_sync (st : PtpHostState) (msg : SyncMessage)
    (now : Nat) : PtpHostState :=
  match st with
  | .TimeTransmitter s => .TimeTransmitter (s.update_from_sync msg now)
  | _ => .TimeTransmitter (PtpHostStateTimeTransmitter.from_sync msg now)

/-- `PtpHostState::update_from_follow_up`. -/
def PtpHostState.update_from_follow_up (st : PtpHostState)
    (msg : FollowUpMessage) : PtpHostState :=
  match st with
  | .TimeTransmitter s => .TimeTransmitter (s.update_from_follow_up msg)
  | _ => .TimeTransmitter (PtpHostStateTimeTransmitter.from_follow_up msg)

/-- `PtpHostState::update_from_recent_sync_sender`: merge if already a
receiver, replace wholesale with a fresh receiver otherwise. -/
def PtpHostState.update_from_recent_sync_sender (st : PtpHostState)
    (recent_sync_sender : ClockIdentity) (ageMs : Nat) : PtpHostState :=
  match st with
  | .TimeReceiver s =>
    .TimeReceiver (s.update_from_recent_sync_sender recent_sync_sender ageMs)
  | _ =>
    .TimeReceiver
      (PtpHostStateTimeReceiver.from_recent_sync_sender recent_sync_sender ageMs)

/-- `PtpHostState::update_from_delay_resp`. -/
def PtpHostState.update_from_delay_resp (st : PtpHostState)
    (msg : DelayRespMessage) : PtpHostState :=
  match st with
  | .TimeReceiver s => .TimeReceiver (s.update_from_delay_resp msg)
  | _ => .TimeReceiver (PtpHostStateTimeReceiver.from_delay_resp msg)

/-- `PtpHostState::update_from_pdelay_resp`. -/
def PtpHostState.update_from_pdelay_resp (st : PtpHostState)
    (msg : PDelayRespMessage) : PtpHostState :=
  match st with
  | .TimeReceiver s => .TimeReceiver (s.update_from_pdelay_resp msg)
  | _ => .TimeReceiver (PtpHostStateTimeReceiver.from_pdelay_resp msg)

/-- `PtpHostState::update_from_pdelay_resp_follow_up`. -/
def PtpHostState.update_from_pdelay_resp_follow_up (st : PtpHostState)
    (msg : PDelayRespFollowUpMessage) : PtpHostState :=
  match st with
  | .TimeReceiver s => .TimeReceiver (s.update_from_pdelay_resp_follow_up msg)
  | _ => .TimeReceiver (PtpHostStateTimeReceiver.from_pdelay_resp_follow_up msg)

/-! ## `src/ptp.rs`: per-host record and tracker -/

/-- Modelled from the spec: `bounded_vec.rs` (the `BoundedVec` packet-history
container) is not under `src/`; the spec describes it as a bounded,
FIFO-evicting log — "packet history per host is capped and silently evicts
oldest entries", and "pushing N+1 packets into a history capped at N leaves
exactly the N most recent, oldest-first order preserved". -/
def boundedPush (max_size : Nat) (items : List PtpMessage) (x : PtpMessage) :
    List PtpMessage :=
  let items' := items ++ [x]
  if max_size < items'.length then items'.drop (items'.length - max_size)
  else items'

/-- `PtpHost`: one record per observed clock identity. `IpAddr` is an opaque
`Nat`, interface names are strings, wall-clock times are `Nat`
milliseconds. -/
structure PtpHost where
  clock_identity : ClockIdentity
  ip_addresses : List (Nat × List String)
  interfaces : List String
  vlan_id : Option Nat
  domain_number : Option Nat
  last_version : Option PtpVersion
  last_seen : Nat
  announce_count : Nat
  sync_count : Nat
  follow_up_count : Nat
  delay_req_count : Nat
  delay_resp_count : Nat
  pdelay_req_count : Nat
  pdelay_resp_count : Nat
  pdelay_resp_follow_up_count : Nat
  total_messages_sent_count : Nat
  total_messages_received_count : Nat
  signaling_message_count : Nat
  management_message_count : Nat
  state : PtpHostState
  last_correction_field : Option Int
  packet_history : List PtpMessage
  max_history : Nat
deriving Repr, DecidableEq

/-- `PtpHost::new` (`last_seen = SystemTime::now()` becomes the explicit
`now`; default history cap 1000). -/
def PtpHost.new (ci : ClockIdentity) (now : Nat) : PtpHost :=
  { clock_identity := ci
    ip_addresses := []
    interfaces := []
    vlan_id := none
    domain_number := none
    last_version := none
    last_seen := now
    announce_count := 0
    sync_count := 0
    follow_up_count := 0
    delay_req_count := 0
    delay_resp_count := 0
    pdelay_req_count := 0
    pdelay_resp_count := 0
    pdelay_resp_follow_up_count := 0
    total_messages_sent_count := 0
    total_messages_received_count := 0
    signaling_message_count := 0
    management_message_count := 0
    state := .Listening
    last_correction_field := none
    packet_history := []
    max_history := 1000 }

/-- Association-list update: set key `k` to `v'`, appending if absent (models
`HashMap::entry().or_default()` followed by mutation). -/
def assocSet {α β : Type} [DecidableEq α] (l : List (α × β)) (k : α) (v' : β) :
    List (α × β) :=
  if (l.lookup k).isSome
  then l.map fun p => if p.1 = k then (p.1, v') else p
  else l ++ [(k, v')]

/-- `PtpHost::add_ip_address`: ensure the entry exists, overwrite the VLAN id,
append the interface name if it is missing for that IP. -/
def PtpHost.add_ip_address (h : PtpHost) (ip : Nat) (vlan : Option Nat)
    (iface : String) : PtpHost :=
  let cur := (h.ip_addresses.lookup ip).getD []
  let cur' := if iface ∈ cur then cur else cur ++ [iface]
  { h with vlan_id := vlan, ip_addresses := assocSet h.ip_addresses ip cur' }

/-- `PtpHost::add_interface` (`HashSet::insert`). -/
def PtpHost.add_interface (h : PtpHost) (iface : String) : PtpHost :=
  if iface ∈ h.interfaces then h
  else { h with interfaces := h.interfaces ++ [iface] }

/-- `PtpHost::update_from_ptp_header` (`last_seen = SystemTime::now()` as the
explicit `now`; the caller immediately overwrites it with the capture
timestamp, exactly as the source does). -/
def PtpHost.update_from_ptp_header (h : PtpHost) (header : PtpHeader)
    (now : Nat) : PtpHost :=
  { h with
    domain_number := some header.domain_number
    last_version := some header.version
    last_correction_field := some header.correction_field
    last_seen := now }

/-- `PtpHost::add_packet` (`BoundedVec::push`). -/
def PtpHost.add_packet (h : PtpHost) (p : PtpMessage) : PtpHost :=
  { h with packet_history := boundedPush h.max_history h.packet_history p }

/-- `PtpHost::is_transmitter`. -/
def PtpHost.is_transmitter (h : PtpHost) : Bool :=
  match h.state with
  | .TimeTransmitter _ => true
  | _ => false

/-- `PtpHost::is_receiver`. -/
def PtpHost.is_receiver (h : PtpHost) : Bool :=
  match h.state with
  | .TimeReceiver _ => true
  | _ => false

/-- `PtpTracker` (the host map as an association list in observation order;
`recent_sync_senders` maps a domain to its `(identity, instant)` list). -/
structure PtpTracker where
  hosts : List (ClockIdentity × PtpHost)
  recent_sync_senders : List (Nat × List (ClockIdentity × Nat))
  last_packet : Nat
deriving Repr, DecidableEq

/-- Per-frame metadata handed over by the capture collaborator: optional
source socket address (L3), interface name, optional VLAN id, capture
timestamp. -/
structure RawMeta where
  source_addr : Option Nat
  interface_name : String
  vlan_id : Option Nat
  timestamp : Nat
deriving Repr, DecidableEq

/-- `hosts.entry(ci).or_insert_with(|| PtpHost::new(ci))`. -/
def hostsGetOrInsert (hosts : List (ClockIdentity × PtpHost))
    (ci : ClockIdentity) (now : Nat) : List (ClockIdentity × PtpHost) :=
  if (hosts.lookup ci).isSome then hosts else hosts ++ [(ci, PtpHost.new ci now)]

/-- Apply `f` to the host stored under `ci` (the mutation through the map
entry). -/
def hostsUpdate (hosts : List (ClockIdentity × PtpHost)) (ci : ClockIdentity)
    (f : PtpHost → PtpHost) : List (ClockIdentity × PtpHost) :=
  hosts.map fun p => if p.1 = ci then (p.1, f p.2) else p

/-- Rust `Iterator::max_by_key` over `(identity, instant)` pairs: on ties the
LAST maximal element is returned, which a left fold replacing on `≥`
reproduces. -/
def maxByKeyLast : List (ClockIdentity × Nat) → Option (ClockIdentity × Nat)
  | [] => none
  | x :: xs => some (xs.foldl (fun b c => if b.2 ≤ c.2 then c else b) x)

/-- Upsert of `(identity, now)` into a domain's recent-sync-sender list:
refresh the instant when the identity is present, append otherwise (the
source's `find`-then-assign-or-`push`). -/
def upsertSyncSender (senders : List (ClockIdentity × Nat))
    (ci : ClockIdentity) (now : Nat) : List (ClockIdentity × Nat) :=
  if (senders.lookup ci).isSome
  then senders.map fun p => if p.1 = ci then (p.1, now) else p
  else senders ++ [(ci, now)]

/-- `PtpTracker::handle_raw_packet` after a successful decode: resolve or
create the sending host, record address/interface, bump the totals, refresh
header-derived fields, then run the per-message-type arm (counters, history,
state machine, recent-sync-sender index, and for the two-host response types
the requesting host's update). `now` stands for the `Instant::now()` /
`SystemTime::now()` calls inside the function. -/
def PtpTracker.handle_message (t : PtpTracker) (msg : PtpMessage)
    (meta : RawMeta) (now : Nat) : PtpTracker :=
  let sid := msg.header.source_port_identity.clock_identity
  let hosts0 := hostsGetOrInsert t.hosts sid now
  let hosts1 := hostsUpdate hosts0 sid fun h =>
    let h := match meta.source_addr with
      | some ip => h.add_ip_address ip meta.vlan_id meta.interface_name
      | none => h.add_interface meta.interface_name
    let h := { h with total_messages_sent_count := h.total_messages_sent_count + 1 }
    let h := h.update_from_ptp_header msg.header now
    { h with last_seen := meta.timestamp }
  let afterArm : List (ClockIdentity × PtpHost) × List (Nat × List (ClockIdentity × Nat)) :=
    match msg with
    | .Announce m =>
      (hostsUpdate hosts1 sid fun h =>
        (({ h with announce_count := h.announce_count + 1
                   state := h.state.update_from_announce m }).add_packet msg),
       t.recent_sync_senders)
    | .Sync m =>
      let hosts2 := hostsUpdate hosts1 sid fun h =>
        (({ h with sync_count := h.sync_count + 1
                   state := h.state.update_from_sync m now }).add_packet msg)
      let senders :=
        (t.recent_sync_senders.lookup m.header.domain_number).getD []
      let senders' :=
        upsertSyncSender senders m.header.source_port_identity.clock_identity now
      (hosts2, assocSet t.recent_sync_senders m.header.domain_number senders')
    | .DelayReq m =>
      (hostsUpdate hosts1 sid fun h =>
        let h := { h with delay_req_count := h.delay_req_count + 1 }
        let h := match t.recent_sync_senders.lookup m.header.domain_number with
          | some domain_senders =>
            match maxByKeyLast domain_senders with
            | some (clock_identity, sync_time) =>
              let st := h.state.update_from_recent_sync_sender clock_identity (now - sync_time)
              { h with state := st }
            | none => h
          | none => h
        h.add_packet msg,
       t.recent_sync_senders)
    | .DelayResp m =>
      let hosts2 := hostsUpdate hosts1 sid fun h =>
        ({ h with delay_resp_count := h.delay_resp_count + 1 }).add_packet msg
      let rid := m.requesting_port_identity.clock_identity
      let hosts3 := hostsGetOrInsert hosts2 rid now
      (hostsUpdate hosts3 rid fun h =>
        (({ h with
             delay_resp_count := h.delay_resp_count + 1
             total_messages_received_count :=
               h.total_messages_received_count + 1
             state := h.state.update_from_delay_resp m }).add_packet msg),
       t.recent_sync_senders)
    | .PDelayReq _ =>
      (hostsUpdate hosts1 sid fun h =>
        let h := { h with pdelay_req_count := h.pdelay_req_count + 1 }
        { h with pdelay_req_count := h.pdelay_req_count + 1 },
       t.recent_sync_senders)
    | .PDelayResp m =>
      let hosts2 := hostsUpdate hosts1 sid fun h =>
        { h with pdelay_resp_count := h.pdelay_resp_count + 1 }
      let rid := m.requesting_port_identity.clock_identity
      let hosts3 := hostsGetOrInsert hosts2 rid now
      (hostsUpdate hosts3 rid fun h =>
        (({ h with
             pdelay_resp_count := h.pdelay_resp_count + 1
             total_messages_received_count :=
               h.total_messages_received_count + 1
             state := h.state.update_from_pdelay_resp m }).add_packet msg),
       t.recent_sync_senders)
    | .PDelayRespFollowup m =>
      let hosts2 := hostsUpdate hosts1 sid fun h =>
        { h with pdelay_resp_follow_up_count := h.pdelay_resp_follow_up_count + 1 }
      let rid := m.requesting_port_identity.clock_identity
      let hosts3 := hostsGetOrInsert hosts2 rid now
      (hostsUpdate hosts3 rid fun h =>
        (({ h with
             pdelay_resp_follow_up_count := h.pdelay_resp_follow_up_count + 1
             total_messages_received_count :=
               h.total_messages_received_count + 1
             state := h.state.update_from_pdelay_resp_follow_up m }).add_packet msg),
       t.recent_sync_senders)
    | .FollowUp m =>
      (hostsUpdate hosts1 sid fun h =>
        { (({ h with follow_up_count := h.follow_up_count + 1 }).add_packet msg) with
          state := h.state.update_from_follow_up m },
       t.recent_sync_senders)
    | .Signaling _ =>
      (hostsUpdate hosts1 sid fun h =>
        ({ h with signaling_message_count := h.signaling_message_count + 1
         }).add_packet msg,
       t.recent_sync_senders)
    | .Management _ =>
      (hostsUpdate hosts1 sid fun h =>
        ({ h with management_message_count := h.management_message_count + 1
         }).add_packet msg,
       t.recent_sync_senders)
  { hosts := afterArm.1, recent_sync_senders := afterArm.2, last_packet := now }

/-- `PtpTracker::cleanup_old_sync_senders`: drop entries 60 s or older, then
drop empty domains. -/
def PtpTracker.cleanup_old_sync_senders (t : PtpTracker) (now : Nat) :
    PtpTracker :=
  let pruned := t.recent_sync_senders.map fun (d, senders) =>
    (d, senders.filter fun p => now - p.2 < 60000)
  { t with recent_sync_senders := pruned.filter fun p => ¬p.2.isEmpty }

/-- The transmitter grouping loop of `run_bmca_election`: walk the host map
and push each transmitter with a known domain onto its domain's list
(`entry(domain).or_default().push(clock_id)`). -/
def groupTransmittersByDomain (hosts : List (ClockIdentity × PtpHost)) :
    List (Nat × List ClockIdentity) :=
  hosts.foldl
    (fun acc p =>
      match p.2.domain_number, p.2.state with
      | some d, .TimeTransmitter _ => assocSet acc d ((acc.lookup d).getD [] ++ [p.1])
      | _, _ => acc)
    []

/-- The winner-reset loop: clear `is_bmca_winner` on every listed transmitter. -/
def resetWinners (hosts : List (ClockIdentity × PtpHost))
    (transmitters : List ClockIdentity) : List (ClockIdentity × PtpHost) :=
  transmitters.foldl
    (fun hs ci =>
      hostsUpdate hs ci fun h =>
        match h.state with
        | .TimeTransmitter s =>
          { h with state := .TimeTransmitter { s with is_bmca_winner := false } }
        | _ => h)
    hosts

/-- The pairwise best-candidate fold: starting from the first listed
transmitter, replace the running best whenever the challenger's
`compare_for_bmca` against it returns `Less`. -/
def findBestTransmitter (hosts : List (ClockIdentity × PtpHost))
    (best : ClockIdentity) : List ClockIdentity → ClockIdentity
  | [] => best
  | candidate :: rest =>
    let best' :=
      match hosts.lookup best, hosts.lookup candidate with
      | some best_host, some candidate_host =>
        match best_host.state, candidate_host.state with
        | .TimeTransmitter best_state, .TimeTransmitter candidate_state =>
          if candidate_state.compare_for_bmca best_state candidate best = .lt
          then candidate else best
        | _, _ => best
      | _, _ => best
    findBestTransmitter hosts best' rest

/-- `PtpTracker::update_receivers_for_domain`: force every receiver-state
host of the domain onto the BMCA winner with confidence 1.0. -/
def PtpTracker.update_receivers_for_domain
    (hosts : List (ClockIdentity × PtpHost)) (domain : Nat)
    (winner_clock_id : ClockIdentity) : List (ClockIdentity × PtpHost) :=
  hosts.map fun p =>
    match p.2.domain_number, p.2.state with
    | some d, .TimeReceiver receiver_state =>
      if d = domain then
        let rs := { receiver_state with
                    selected_transmitter_identity := some winner_clock_id
                    selected_transmitter_confidence := (1 : ℚ) }
        (p.1, { p.2 with state := .TimeReceiver rs })
      else p
    | _, _ => p

/-- The per-domain election body: reset winners, fold for the best
transmitter, mark it, then sweep the domain's receivers. -/
def electDomain (hosts : List (ClockIdentity × PtpHost)) (domain : Nat)
    (transmitters : List ClockIdentity) : List (ClockIdentity × PtpHost) :=
  match transmitters with
  | [] => hosts
  | first :: rest =>
    let hosts := resetWinners hosts transmitters
    let best := findBestTransmitter hosts first rest
    let hosts := hostsUpdate hosts best fun h =>
      match h.state with
      | .TimeTransmitter s =>
        { h with state := .TimeTransmitter { s with is_bmca_winner := true } }
      | _ => h
    PtpTracker.update_receivers_for_domain hosts domain best

/-- `PtpTracker::run_bmca_election`: group transmitters by domain, elect in
each domain, propagate to that domain's receivers. -/
def PtpTracker.run_bmca_election (t : PtpTracker) : PtpTracker :=
  let grouping := groupTransmittersByDomain t.hosts
  { t with hosts := grouping.foldl (fun hs p => electDomain hs p.1 p.2) t.hosts }

/-- Projection used by the scenario theorems: the state of the host stored
under a clock identity. -/
def PtpTracker.stateOf (t : PtpTracker) (ci : ClockIdentity) :
    Option PtpHostState :=
  (t.hosts.lookup ci).map PtpHost.state

/-! ## Shared lemmas and test fixtures -/

theorem DResult.ok_bind {α β : Type} (a : α) (f : α → DResult β) :
    (DResult.ok a : DResult α) >>= f = f a := rfl

theorem DResult.err_bind {α β : Type} (m : String) (f : α → DResult β) :
    (DResult.err m : DResult α) >>= f = DResult.err m := rfl

theorem DResult.crash_bind {α β : Type} (m : String) (f : α → DResult β) :
    (DResult.crash m : DResult α) >>= f = DResult.crash m := rfl

/-- An 8-byte test clock identity whose last byte is `n`. -/
def testCI (n : Nat) : ClockIdentity := ⟨[0, 0, 0, 0, 0, 0, 0, n]⟩

/-- All-clear header flags for scenario messages. -/
def mkTestFlags : PtpHeaderFlags :=
  { v := [0, 0], alternate_tt_flag := false, two_step_flag := false
    unicast_flag := false, profile_specific_1 := false
    profile_specific_2 := false, ptp_security_flag := false
    leap61 := false, leap59 := false, current_utc_offset_valid := false
    ptp_timescale := false, time_traceable := false
    frequency_traceable := false, sync_uncertain := false }

/-- A concrete v2 header for scenario messages: message type `mt`, domain
`dom`, source clock `src` on port 1. -/
def mkTestHeader (mt : PtpMessageType) (dom : Nat) (src : ClockIdentity) :
    PtpHeader :=
  { message_type := mt, version := .V2, version_minor := 0
    message_length := 44, domain_number := dom, sdo_id := 0
    flags := mkTestFlags, correction_field := 0, msg_specific := [0, 0, 0, 0]
    source_port_identity := ⟨src, 1⟩, sequence_id := 0, control_field := 0
    log_message_interval := 0 }

/-- Frame metadata for scenario packets (L3, eth0, no VLAN, captured at 0). -/
def testMeta : RawMeta :=
  { source_addr := some 1, interface_name := "eth0", vlan_id := none
    timestamp := 0 }

/-! ## C1 -/

/-- C1: the claim says `PtpMessage::try_from` never panics and returns a
structured decode error on any input shorter than 34 bytes. In the code the
dispatcher slices `&data[..34]` before any length check, so every input
shorter than 34 bytes panics (first conjunct, for all short inputs); the
length guard the claim describes exists only one level down, in
`PtpHeader::try_from` (second conjunct). -/
theorem C1_short_input_panics_before_length_check :
    (∀ data : List Nat, data.length < 34 →
      PtpMessage.tryFrom data = DResult.crash "slice index out of range") ∧
    PtpHeader.tryFrom (List.replicate 33 0) =
      DResult.err "Packet too short for PTP header" := by
  constructor
  · intro data h
    have hslice : rustSlice data 0 34 = DResult.crash "slice index out of range" := by
      simp [rustSlice]; omega
    simp [PtpMessage.tryFrom, hslice, DResult.crash_bind]
  · rfl

/-- C1 witness: the 33-byte all-zero buffer panics in the dispatcher. -/
theorem C1_short_input_panics_witness :
    PtpMessage.tryFrom (List.replicate 33 0) =
      DResult.crash "slice index out of range" :=
  C1_short_input_panics_before_length_check.1 (List.replicate 33 0) (by simp)

/-! ## C8 -/

/-- C8: for every message variant, a buffer one byte below the variant's
minimum length (43 for Sync/FollowUp/DelayReq, 63 for Announce, 53 for the
rest) is rejected by that variant's decoder with a structured decode error,
whatever its contents. -/
theorem C8_one_byte_below_minimum_errors (d43 d63 d53 : List Nat)
    (h43 : d43.length = 43) (h63 : d63.length = 63) (h53 : d53.length = 53) :
    SyncMessage.tryFrom d43 = DResult.err "Packet too short for Sync message" ∧
    FollowUpMessage.tryFrom d43 = DResult.err "Packet too short for Sync message" ∧
    DelayReqMessage.tryFrom d43 = DResult.err "Invalid PDelayRespFollowUpMessage length" ∧
    AnnounceMessage.tryFrom d63 = DResult.err "Packet too short for Announce message" ∧
    DelayRespMessage.tryFrom d53 = DResult.err "Invalid DelayRespMessage length" ∧
    PDelayReqMessage.tryFrom d53 = DResult.err "Packet too short for PDelayReq message" ∧
    PDelayRespMessage.tryFrom d53 = DResult.err "Packet too short for PDelayResp message" ∧
    PDelayRespFollowUpMessage.tryFrom d53 = DResult.err "Invalid PDelayRespFollowUpMessage length" ∧
    SignalingMessage.tryFrom d53 = DResult.err "Invalid SignalingMessage length" ∧
    ManagementMessage.tryFrom d53 = DResult.err "Invalid ManagementMessage length" := by
  refine ⟨?_, ?_, ?_, ?_, ?_, ?_, ?_, ?_, ?_, ?_⟩ <;>
    simp [SyncMessage.tryFrom, FollowUpMessage.tryFrom, DelayReqMessage.tryFrom,
      AnnounceMessage.tryFrom, DelayRespMessage.tryFrom, PDelayReqMessage.tryFrom,
      PDelayRespMessage.tryFrom, PDelayRespFollowUpMessage.tryFrom,
      SignalingMessage.tryFrom, ManagementMessage.tryFrom, h43, h63, h53]

/-- C8 witness: all-zero buffers of lengths 43, 63 and 53 are all rejected. -/
theorem C8_one_byte_below_minimum_errors_witness :
    SyncMessage.tryFrom (List.replicate 43 0) = DResult.err "Packet too short for Sync message" ∧
    FollowUpMessage.tryFrom (List.replicate 43 0) = DResult.err "Packet too short for Sync message" ∧
    DelayReqMessage.tryFrom (List.replicate 43 0) = DResult.err "Invalid PDelayRespFollowUpMessage length" ∧
    AnnounceMessage.tryFrom (List.replicate 63 0) = DResult.err "Packet too short for Announce message" ∧
    DelayRespMessage.tryFrom (List.replicate 53 0) = DResult.err "Invalid DelayRespMessage length" ∧
    PDelayReqMessage.tryFrom (List.replicate 53 0) = DResult.err "Packet too short for PDelayReq message" ∧
    PDelayRespMessage.tryFrom (List.replicate 53 0) = DResult.err "Packet too short for PDelayResp message" ∧
    PDelayRespFollowUpMessage.tryFrom (List.replicate 53 0) = DResult.err "Invalid PDelayRespFollowUpMessage length" ∧
    SignalingMessage.tryFrom (List.replicate 53 0) = DResult.err "Invalid SignalingMessage length" ∧
    ManagementMessage.tryFrom (List.replicate 53 0) = DResult.err "Invalid ManagementMessage length" :=
  C8_one_byte_below_minimum_errors (List.replicate 43 0) (List.replicate 63 0)
    (List.replicate 53 0) (by simp) (by simp) (by simp)

/-! ## C10 -/

/-- C10: `total_nanoseconds` is exactly `seconds * 10^9 + nanoseconds` (the
`u128` arithmetic cannot overflow for 48-bit seconds and 32-bit
nanoseconds), and `rtp_samples` is the truncating division
`total * rate / 10^9` reduced modulo `2^32` by the final `as u32` cast. -/
theorem C10_total_nanoseconds_rtp_samples (t : PtpTimestamp) (rate : Nat)
    (hs : t.seconds < 2 ^ 48) (hn : t.nanoseconds < 2 ^ 32)
    (hr : rate < 2 ^ 32) :
    t.total_nanoseconds = t.seconds * 1000000000 + t.nanoseconds ∧
    t.rtp_samples rate =
      (t.seconds * 1000000000 + t.nanoseconds) * rate / 1000000000 % 2 ^ 32 := by
  have htot : t.seconds * 1000000000 + t.nanoseconds < 2 ^ 79 := by
    have h48 : (2 : Nat) ^ 48 = 281474976710656 := by norm_num
    have h32 : (2 : Nat) ^ 32 = 4294967296 := by norm_num
    have h79 : (2 : Nat) ^ 79 = 604462909807314587353088 := by norm_num
    omega
  have h1 : t.total_nanoseconds = t.seconds * 1000000000 + t.nanoseconds := by
    unfold PtpTimestamp.total_nanoseconds
    exact Nat.mod_eq_of_lt (lt_of_lt_of_le htot (by norm_num))
  refine ⟨h1, ?_⟩
  unfold PtpTimestamp.rtp_samples
  rw [h1]
  have hprod : (t.seconds * 1000000000 + t.nanoseconds) * rate < 2 ^ 128 := by
    calc (t.seconds * 1000000000 + t.nanoseconds) * rate
        ≤ (t.seconds * 1000000000 + t.nanoseconds) * 2 ^ 32 :=
          Nat.mul_le_mul_left _ (Nat.le_of_lt hr)
      _ < 2 ^ 79 * 2 ^ 32 := by
          exact Nat.mul_lt_mul_of_lt_of_le htot (le_refl _) (by norm_num)
      _ ≤ 2 ^ 128 := by norm_num
  rw [Nat.mod_eq_of_lt hprod]

/-- C10 witness: a timestamp of 100000 s at 48 kHz — the exact sample count
4.8e9 exceeds `2^32 - 1` and the result wraps. -/
theorem C10_total_nanoseconds_rtp_samples_witness :
    (PtpTimestamp.mk 100000 0).total_nanoseconds = 100000 * 1000000000 + 0 ∧
    (PtpTimestamp.mk 100000 0).rtp_samples 48000 =
      (100000 * 1000000000 + 0) * 48000 / 1000000000 % 2 ^ 32 :=
  C10_total_nanoseconds_rtp_samples ⟨100000, 0⟩ 48000 (by norm_num) (by norm_num)
    (by norm_num)

/-! ## C7 -/

theorem compareBytes_self : ∀ xs, compareBytes xs xs = .eq := by
  intro xs
  induction xs with
  | nil => rfl
  | cons a t ih => simp [compareBytes, Nat.compare_eq_eq.mpr rfl, ih]

theorem compareBytes_swap : ∀ xs ys, compareBytes ys xs = (compareBytes xs ys).swap := by
  intro xs
  induction xs with
  | nil => intro ys; cases ys <;> rfl
  | cons a t ih =>
    intro ys
    cases ys with
    | nil => rfl
    | cons b u =>
      simp only [compareBytes]
      rcases Nat.lt_trichotomy a b with h | h | h
      · rw [Nat.compare_eq_lt.mpr h, Nat.compare_eq_gt.mpr h]; rfl
      · subst h; rw [Nat.compare_eq_eq.mpr rfl]; exact ih u
      · rw [Nat.compare_eq_gt.mpr h, Nat.compare_eq_lt.mpr h]; rfl

theorem compareBytes_eq_iff : ∀ xs ys, xs.length = ys.length →
    (compareBytes xs ys = .eq ↔ xs = ys) := by
  intro xs
  induction xs with
  | nil => intro ys h; cases ys <;> simp_all [compareBytes]
  | cons a t ih =>
    intro ys h
    cases ys with
    | nil => simp at h
    | cons b u =>
      simp only [compareBytes]
      rcases Nat.lt_trichotomy a b with hlt | heq | hgt
      · rw [Nat.compare_eq_lt.mpr hlt]
        simp [hlt.ne]
      · subst heq
        rw [Nat.compare_eq_eq.mpr rfl]
        have h' : t.length = u.length := by simpa using h
        simp [ih u h']
      · rw [Nat.compare_eq_gt.mpr hgt]
        simp [hgt.ne']

theorem bmcaCriterion_self (x : Option Nat) : bmcaCriterion x x = none := by
  cases x <;> simp [bmcaCriterion, Nat.compare_eq_eq.mpr rfl]

/-- With identical fields, every BMCA criterion falls through and the result
is the byte-lexicographic identity comparison. -/
theorem compare_for_bmca_self_fields (t : PtpHostStateTimeTransmitter)
    (x y : ClockIdentity) :
    t.compare_for_bmca t x y = compareBytes x.clock_id y.clock_id := by
  unfold PtpHostStateTimeTransmitter.compare_for_bmca
  rw [bmcaCriterion_self, bmcaCriterion_self, bmcaCriterion_self,
    bmcaCriterion_self, bmcaCriterion_self]

/-- C7: for two `TimeTransmitter` states with identical fields and distinct
8-byte clock identities, `compare_for_bmca` in the two argument orders
returns strictly inverse orderings (`lt` one way and `gt` the other), and
comparing a state against itself under the same identity yields `eq` — the
tie is broken only by identity equality. -/
theorem C7_compare_for_bmca_strict_inverse (t : PtpHostStateTimeTransmitter)
    (a b : ClockIdentity) (hlen : a.clock_id.length = b.clock_id.length)
    (hne : a ≠ b) :
    ((t.compare_for_bmca t a b = .lt ∧ t.compare_for_bmca t b a = .gt) ∨
     (t.compare_for_bmca t a b = .gt ∧ t.compare_for_bmca t b a = .lt)) ∧
    t.compare_for_bmca t a a = .eq := by
  have hab := compare_for_bmca_self_fields t a b
  have hba := compare_for_bmca_self_fields t b a
  have haa := compare_for_bmca_self_fields t a a
  have hswap := compareBytes_swap a.clock_id b.clock_id
  have hneq : compareBytes a.clock_id b.clock_id ≠ .eq := by
    intro hc
    apply hne
    have := (compareBytes_eq_iff a.clock_id b.clock_id hlen).mp hc
    cases a; cases b; simpa using this
  constructor
  · rcases hcmp : compareBytes a.clock_id b.clock_id with _ | _ | _
    · left
      exact ⟨hab.trans hcmp, hba.trans (by rw [hswap, hcmp]; rfl)⟩
    · exact absurd hcmp hneq
    · right
      exact ⟨hab.trans hcmp, hba.trans (by rw [hswap, hcmp]; rfl)⟩
  · rw [haa, compareBytes_self]

/-- C7 witness: identities `...01` and `...02` with default fields. -/
theorem C7_compare_for_bmca_strict_inverse_witness :
    ((PtpHostStateTimeTransmitter.default.compare_for_bmca
        PtpHostStateTimeTransmitter.default (testCI 1) (testCI 2) = .lt ∧
      PtpHostStateTimeTransmitter.default.compare_for_bmca
        PtpHostStateTimeTransmitter.default (testCI 2) (testCI 1) = .gt) ∨
     (PtpHostStateTimeTransmitter.default.compare_for_bmca
        PtpHostStateTimeTransmitter.default (testCI 1) (testCI 2) = .gt ∧
      PtpHostStateTimeTransmitter.default.compare_for_bmca
        PtpHostStateTimeTransmitter.default (testCI 2) (testCI 1) = .lt)) ∧
    PtpHostStateTimeTransmitter.default.compare_for_bmca
      PtpHostStateTimeTransmitter.default (testCI 1) (testCI 1) = .eq :=
  C7_compare_for_bmca_strict_inverse PtpHostStateTimeTransmitter.default
    (testCI 1) (testCI 2) (by rfl) (by decide)

/-! ## C2 -/

/-- A DelayResp from clock `...01` naming clock `...02` as requester. -/
def drMsg : DelayRespMessage :=
  { header := mkTestHeader .DelayResp 0 (testCI 1)
    receive_timestamp := ⟨5, 6⟩
    requesting_port_identity := ⟨testCI 2, 1⟩ }

/-- A PDelayResp from clock `...01` naming clock `...02` as requester. -/
def pdrMsg : PDelayRespMessage :=
  { header := mkTestHeader .PDelayResp 0 (testCI 1)
    request_receipt_timestamp := ⟨5, 6⟩
    requesting_port_identity := ⟨testCI 2, 1⟩ }

/-- A PDelayRespFollowUp from clock `...01` naming clock `...02` as
requester. -/
def pdrfuMsg : PDelayRespFollowUpMessage :=
  { header := mkTestHeader .PDelayRespFollowUp 0 (testCI 1)
    response_origin_timestamp := ⟨5, 6⟩
    requesting_port_identity := ⟨testCI 2, 1⟩ }

/-- C2 counterexample: processing a PDelayResp for a requesting host the
tracker has never seen replaces its state with a fresh `TimeReceiver` whose
`selected_transmitter_confidence` is 0.0, not the claimed 1.0 (only the
request-receipt timestamp is recorded). -/
theorem C2_pdelay_resp_confidence_not_one :
    ((PtpTracker.mk [] [] 0).handle_message (.PDelayResp pdrMsg) testMeta 0).stateOf
        (testCI 2) =
      some (.TimeReceiver
        { last_delay_response_origin_timestamp := none
          last_pdelay_response_origin_timestamp := some ⟨5, 6⟩
          last_pdelay_follow_up_timestamp := none
          selected_transmitter_identity := none
          selected_transmitter_confidence := 0 }) ∧
    (0 : ℚ) ≠ 1 := by
  constructor
  · rfl
  · norm_num

/-- C2 (amended): DelayResp, PDelayResp and PDelayRespFollowUp processed for
the requesting clock identity merge into an existing `TimeReceiver` state
and replace any other state wholesale with a fresh one — but only DelayResp
sets `selected_transmitter_confidence` to exactly 1.0 (and selects the
responding sender); PDelayResp and PDelayRespFollowUp record only their
timestamp field, leaving confidence untouched (0.0 in a fresh state). -/
theorem C2_response_state_updates (st : PtpHostState) (m : DelayRespMessage)
    (p : PDelayRespMessage) (q : PDelayRespFollowUpMessage) :
    (∀ r, st = .TimeReceiver r →
      st.update_from_delay_resp m = .TimeReceiver
        { r with
          last_delay_response_origin_timestamp := some m.receive_timestamp
          selected_transmitter_identity :=
            some m.header.source_port_identity.clock_identity
          selected_transmitter_confidence := 1 } ∧
      st.update_from_pdelay_resp p = .TimeReceiver
        { r with
          last_pdelay_response_origin_timestamp :=
            some p.request_receipt_timestamp } ∧
      st.update_from_pdelay_resp_follow_up q = .TimeReceiver
        { r with
          last_pdelay_follow_up_timestamp :=
            some q.response_origin_timestamp }) ∧
    ((∀ r, st ≠ .TimeReceiver r) →
      st.update_from_delay_resp m = .TimeReceiver
        { PtpHostStateTimeReceiver.default with
          last_delay_response_origin_timestamp := some m.receive_timestamp
          selected_transmitter_identity :=
            some m.header.source_port_identity.clock_identity
          selected_transmitter_confidence := 1 } ∧
      st.update_from_pdelay_resp p = .TimeReceiver
        { PtpHostStateTimeReceiver.default with
          last_pdelay_response_origin_timestamp :=
            some p.request_receipt_timestamp } ∧
      st.update_from_pdelay_resp_follow_up q = .TimeReceiver
        { PtpHostStateTimeReceiver.default with
          last_pdelay_follow_up_timestamp :=
            some q.response_origin_timestamp }) := by
  cases st with
  | Listening =>
    exact ⟨(fun r hr => nomatch hr), (fun _ => ⟨rfl, rfl, rfl⟩)⟩
  | TimeTransmitter s =>
    exact ⟨(fun r hr => nomatch hr), (fun _ => ⟨rfl, rfl, rfl⟩)⟩
  | TimeReceiver r0 =>
    constructor
    · intro r hr
      injection hr with h
      subst h
      exact ⟨rfl, rfl, rfl⟩
    · intro hno
      exact absurd rfl (hno r0)

/-- C2 amended-claim witness: a `Listening` host handed the three response
types; the fresh PDelayResp state keeps confidence 0.0 while the fresh
DelayResp state reaches 1.0. -/
theorem C2_response_state_updates_witness :
    (PtpHostState.Listening).update_from_delay_resp drMsg = .TimeReceiver
      { PtpHostStateTimeReceiver.default with
        last_delay_response_origin_timestamp := some drMsg.receive_timestamp
        selected_transmitter_identity :=
          some drMsg.header.source_port_identity.clock_identity
        selected_transmitter_confidence := 1 } ∧
    (PtpHostState.Listening).update_from_pdelay_resp pdrMsg = .TimeReceiver
      { PtpHostStateTimeReceiver.default with
        last_pdelay_response_origin_timestamp :=
          some pdrMsg.request_receipt_timestamp } ∧
    (PtpHostState.Listening).update_from_pdelay_resp_follow_up pdrfuMsg =
      .TimeReceiver
        { PtpHostStateTimeReceiver.default with
          last_pdelay_follow_up_timestamp :=
            some pdrfuMsg.response_origin_timestamp } :=
  (C2_response_state_updates .Listening drMsg pdrMsg pdrfuMsg).2
    (fun r hr => by cases hr)

/-! ## C9 -/

/-- C9: a heuristic DelayReq correlation applied to a host whose state is
`Listening` or `TimeTransmitter` replaces the state wholesale with a fresh
`TimeReceiver`: every transmitter field is discarded, the selection is the
recent sync sender, and the confidence is the clamped age ratio (the fresh
state starts from confidence 0.0, so the `< 1.0` guard always fires). -/
theorem C9_delay_req_replaces_non_receiver (st : PtpHostState)
    (sender : ClockIdentity) (ageMs : Nat)
    (h : st = .Listening ∨ ∃ ts, st = .TimeTransmitter ts) :
    st.update_from_recent_sync_sender sender ageMs = .TimeReceiver
      { last_delay_response_origin_timestamp := none
        last_pdelay_response_origin_timestamp := none
        last_pdelay_follow_up_timestamp := none
        selected_transmitter_identity := some sender
        selected_transmitter_confidence :=
          ratClamp ((ageMs : ℚ) / 5000) 0 (9 / 10) } := by
  have hfresh : PtpHostStateTimeReceiver.from_recent_sync_sender sender ageMs =
      { last_delay_response_origin_timestamp := none
        last_pdelay_response_origin_timestamp := none
        last_pdelay_follow_up_timestamp := none
        selected_transmitter_identity := some sender
        selected_transmitter_confidence :=
          ratClamp ((ageMs : ℚ) / 5000) 0 (9 / 10) } := by
    unfold PtpHostStateTimeReceiver.from_recent_sync_sender
      PtpHostStateTimeReceiver.update_from_recent_sync_sender
      PtpHostStateTimeReceiver.default
    norm_num
  rcases h with h | ⟨ts, h⟩ <;> subst h <;>
    simp [PtpHostState.update_from_recent_sync_sender, hfresh]

/-- C9 witness: a `TimeTransmitter` with default fields hit by a DelayReq
correlation against sender `...07` at age 2500 ms. -/
theorem C9_delay_req_replaces_non_receiver_witness :
    (PtpHostState.TimeTransmitter
        PtpHostStateTimeTransmitter.default).update_from_recent_sync_sender
      (testCI 7) 2500 = .TimeReceiver
      { last_delay_response_origin_timestamp := none
        last_pdelay_response_origin_timestamp := none
        last_pdelay_follow_up_timestamp := none
        selected_transmitter_identity := some (testCI 7)
        selected_transmitter_confidence :=
          ratClamp ((2500 : ℚ) / 5000) 0 (9 / 10) } :=
  C9_delay_req_replaces_non_receiver
    (.TimeTransmitter PtpHostStateTimeTransmitter.default) (testCI 7) 2500
    (Or.inr ⟨PtpHostStateTimeTransmitter.default, rfl⟩)

/-! ## C4 -/

/-- A PDelayReq from clock `...01`. -/
def pdreqMsg : PDelayReqMessage :=
  { header := mkTestHeader .PDelayReq 0 (testCI 1)
    origin_timestamp := ⟨0, 0⟩ }

/-- A Signaling message from clock `...01`. -/
def sigMsg : SignalingMessage :=
  { header := mkTestHeader .Signaling 0 (testCI 1)
    target_port_identity := ⟨testCI 2, 1⟩ }

/-- A Management message from clock `...01`. -/
def mgmtMsg : ManagementMessage :=
  { header := mkTestHeader .Management 0 (testCI 1)
    target_port_identity := ⟨testCI 2, 1⟩
    starting_boundary_hops := 0, boundary_hops := 0, action_field := 0 }

/-- A Sync message from clock `...02` in domain 0 (also the C6 scenario's
"host Y" sync). -/
def syncY : SyncMessage :=
  { header := mkTestHeader .Sync 0 (testCI 2), origin_timestamp := ⟨0, 0⟩ }

/-- The C4 starting tracker: host `...01` with 5 PDelayReqs counted and one
Sync packet in its history. -/
def c4Tracker : PtpTracker :=
  PtpTracker.mk
    [(testCI 1,
      { PtpHost.new (testCI 1) 0 with
        pdelay_req_count := 5
        packet_history := [.Sync syncY] })] [] 0

/-- C4: the claim says a PDelayReq bumps the sender's matching counter by
one, appends the packet to history, and leaves role state unchanged. In the
code the `PDelayReq` arm increments `pdelay_req_count` twice and never calls
`add_packet`: after one PDelayReq the counter goes 5 → 7 and the history
still holds only the old Sync (first conjunct). Signaling and Management
behave exactly as claimed (remaining conjuncts); role state is unchanged in
all three cases. -/
theorem C4_pdelay_req_double_count_no_history_append :
    ((c4Tracker.handle_message (.PDelayReq pdreqMsg) testMeta 7).hosts.lookup
        (testCI 1)).map
      (fun h => (h.pdelay_req_count, h.packet_history, h.state)) =
      some (7, [.Sync syncY], .Listening) ∧
    ((c4Tracker.handle_message (.Signaling sigMsg) testMeta 7).hosts.lookup
        (testCI 1)).map
      (fun h => (h.signaling_message_count, h.packet_history, h.state)) =
      some (1, [.Sync syncY, .Signaling sigMsg], .Listening) ∧
    ((c4Tracker.handle_message (.Management mgmtMsg) testMeta 7).hosts.lookup
        (testCI 1)).map
      (fun h => (h.management_message_count, h.packet_history, h.state)) =
      some (1, [.Sync syncY, .Management mgmtMsg], .Listening) := by
  exact ⟨rfl, rfl, rfl⟩

/-! ## C6 -/

/-- The C6 scenario's DelayReq from host X (`...01`) in domain 0. -/
def dreqX : DelayReqMessage :=
  { header := mkTestHeader .DelayReq 0 (testCI 1)
    origin_timestamp := ⟨0, 0⟩ }

/-- The C6 scenario: a Sync from Y (`...02`) in domain 0 processed at t=0 ms,
then a DelayReq from X (`...01`) processed at t=2500 ms. -/
def c6Tracker : PtpTracker :=
  ((PtpTracker.mk [] [] 0).handle_message (.Sync syncY) testMeta
      0).handle_message (.DelayReq dreqX) testMeta 2500

/-- The receiver value the C6 scenario computes: confidence
`clamp(2500/5000, 0, 0.9) = 1/2` targeting Y. -/
theorem c6_receiver_value :
    PtpHostStateTimeReceiver.default.update_from_recent_sync_sender (testCI 2)
      2500 =
      { last_delay_response_origin_timestamp := none
        last_pdelay_response_origin_timestamp := none
        last_pdelay_follow_up_timestamp := none
        selected_transmitter_identity := some (testCI 2)
        selected_transmitter_confidence := 1 / 2 } := by
  unfold PtpHostStateTimeReceiver.update_from_recent_sync_sender
    PtpHostStateTimeReceiver.default ratClamp
  norm_num

/-- C6 counterexample: in the 2.5-second DelayReq scenario the code computes
confidence `2500/5000 = 0.5` exactly — not "approximately 0.45" as claimed
(0.5 misses 0.45 by 0.05, far beyond any float rounding); the selected
identity is Y as claimed. -/
theorem C6_confidence_is_half_not_approx_045 :
    c6Tracker.stateOf (testCI 1) =
      some (.TimeReceiver
        { last_delay_response_origin_timestamp := none
          last_pdelay_response_origin_timestamp := none
          last_pdelay_follow_up_timestamp := none
          selected_transmitter_identity := some (testCI 2)
          selected_transmitter_confidence := 1 / 2 }) ∧
    (1 : ℚ) / 2 ≠ 45 / 100 ∧ (1 : ℚ) / 2 - 45 / 100 = 1 / 20 := by
  have hmain : c6Tracker.stateOf (testCI 1) =
      some (.TimeReceiver
        (PtpHostStateTimeReceiver.default.update_from_recent_sync_sender
          (testCI 2) 2500)) := rfl
  refine ⟨?_, ?_, ?_⟩
  · rw [hmain, c6_receiver_value]
  · norm_num
  · norm_num

/-- C6 (amended): in that scenario X's receiver sub-state gets
`selected_transmitter_identity = Y` and confidence exactly 0.5 (2500/5000,
under the 0.9 cap). -/
theorem C6_delay_req_scenario_confidence_half :
    c6Tracker.stateOf (testCI 1) =
      some (.TimeReceiver
        { last_delay_response_origin_timestamp := none
          last_pdelay_response_origin_timestamp := none
          last_pdelay_follow_up_timestamp := none
          selected_transmitter_identity := some (testCI 2)
          selected_transmitter_confidence := 1 / 2 }) := by
  have hmain : c6Tracker.stateOf (testCI 1) =
      some (.TimeReceiver
        (PtpHostStateTimeReceiver.default.update_from_recent_sync_sender
          (testCI 2) 2500)) := rfl
  rw [hmain, c6_receiver_value]

/-! ## C5 -/

theorem foldl_pickMax_spec (l : List (ClockIdentity × Nat))
    (acc : ClockIdentity × Nat) :
    acc.2 ≤ (l.foldl (fun b c => if b.2 ≤ c.2 then c else b) acc).2 ∧
    ∀ p ∈ l, p.2 ≤ (l.foldl (fun b c => if b.2 ≤ c.2 then c else b) acc).2 := by
  induction l generalizing acc with
  | nil => exact ⟨le_refl _, by simp⟩
  | cons x xs ih =>
    simp only [List.foldl_cons]
    have h1 : acc.2 ≤ (if acc.2 ≤ x.2 then x else acc).2 := by
      split
      · assumption
      · exact le_refl _
    have h2 : x.2 ≤ (if acc.2 ≤ x.2 then x else acc).2 := by
      split
      · exact le_refl _
      · omega
    obtain ⟨ha, hmem⟩ := ih (if acc.2 ≤ x.2 then x else acc)
    refine ⟨le_trans h1 ha, ?_⟩
    intro p hp
    rcases List.mem_cons.mp hp with hpx | hpxs
    · subst hpx; exact le_trans h2 ha
    · exact hmem p hpxs

/-- The `max_by_key` pick really is the most recent entry in the list. -/
theorem maxByKeyLast_is_max (l : List (ClockIdentity × Nat))
    (m : ClockIdentity × Nat) (h : maxByKeyLast l = some m) :
    ∀ p ∈ l, p.2 ≤ m.2 := by
  cases l with
  | nil => cases h
  | cons x xs =>
    unfold maxByKeyLast at h
    injection h with h
    intro p hp
    obtain ⟨ha, hmem⟩ := foldl_pickMax_spec xs x
    rcases List.mem_cons.mp hp with hpx | hpxs
    · subst hpx; rw [← h]; exact ha
    · rw [← h]; exact hmem p hpxs

/-- C5: a DelayReq-driven heuristic update modifies the host's receiver
sub-state only when its existing confidence is strictly below 1.0 (a 1.0
confidence is never decreased or retargeted); when it does fire, the
selection becomes the domain's most recent sync sender (the `max_by_key`
pick, which the first conjunct shows is the most recent) with confidence
`clamp(age_ms / 5000, 0.0, 0.9)`, age being the time since that sender's
last recorded Sync. -/
theorem C5_delay_req_guard_and_formula (r : PtpHostStateTimeReceiver)
    (hX : PtpHost) (senders : List (ClockIdentity × Nat)) (idY : ClockIdentity)
    (tY now lastp : Nat) (meta : RawMeta) (m : DelayReqMessage)
    (hXst : hX.state = .TimeReceiver r)
    (hmax : maxByKeyLast senders = some (idY, tY)) :
    (∀ p ∈ senders, p.2 ≤ tY) ∧
    (1 ≤ r.selected_transmitter_confidence →
      (PtpTracker.handle_message
          ⟨[(m.header.source_port_identity.clock_identity, hX)],
           [(m.header.domain_number, senders)], lastp⟩
          (.DelayReq m) meta now).stateOf
        m.header.source_port_identity.clock_identity =
        some (.TimeReceiver r)) ∧
    (r.selected_transmitter_confidence < 1 →
      (PtpTracker.handle_message
          ⟨[(m.header.source_port_identity.clock_identity, hX)],
           [(m.header.domain_number, senders)], lastp⟩
          (.DelayReq m) meta now).stateOf
        m.header.source_port_identity.clock_identity =
        some (.TimeReceiver
          { r with
            selected_transmitter_identity := some idY
            selected_transmitter_confidence :=
              ratClamp (((now - tY : Nat) : ℚ) / 5000) 0 (9 / 10) })) := by
  obtain ⟨sa, ifn, vl, ts⟩ := meta
  have hstate :
      (PtpTracker.handle_message
          ⟨[(m.header.source_port_identity.clock_identity, hX)],
           [(m.header.domain_number, senders)], lastp⟩
          (.DelayReq m) ⟨sa, ifn, vl, ts⟩ now).stateOf
        m.header.source_port_identity.clock_identity =
        some (hX.state.update_from_recent_sync_sender idY (now - tY)) := by
    cases sa <;>
      (simp [PtpTracker.handle_message, PtpMessage.header, hostsGetOrInsert,
         hostsUpdate, PtpTracker.stateOf, PtpHost.update_from_ptp_header,
         PtpHost.add_ip_address, PtpHost.add_interface, PtpHost.add_packet,
         List.lookup, hmax];
       try (split <;> rfl))
  refine ⟨fun p hp => maxByKeyLast_is_max senders (idY, tY) hmax p hp, ?_, ?_⟩
  · intro hconf
    rw [hstate, hXst]
    simp only [PtpHostState.update_from_recent_sync_sender,
      PtpHostStateTimeReceiver.update_from_recent_sync_sender]
    rw [if_neg (not_lt.mpr hconf)]
  · intro hconf
    rw [hstate, hXst]
    simp only [PtpHostState.update_from_recent_sync_sender,
      PtpHostStateTimeReceiver.update_from_recent_sync_sender]
    rw [if_pos hconf]

/-- The C5 witness host: `...01` already in `TimeReceiver` state with default
(0.0) confidence. -/
def c5HostX : PtpHost :=
  { PtpHost.new (testCI 1) 0 with
    state := .TimeReceiver PtpHostStateTimeReceiver.default }

/-- C5 witness: sender list `[(Y, 0)]`, DelayReq from X at 2500 ms. -/
theorem C5_delay_req_guard_and_formula_witness :
    (∀ p ∈ [((testCI 2 : ClockIdentity), (0 : Nat))], p.2 ≤ 0) ∧
    (1 ≤ PtpHostStateTimeReceiver.default.selected_transmitter_confidence →
      (PtpTracker.handle_message
          ⟨[(dreqX.header.source_port_identity.clock_identity, c5HostX)],
           [(dreqX.header.domain_number, [(testCI 2, 0)])], 0⟩
          (.DelayReq dreqX) testMeta 2500).stateOf
        dreqX.header.source_port_identity.clock_identity =
        some (.TimeReceiver PtpHostStateTimeReceiver.default)) ∧
    (PtpHostStateTimeReceiver.default.selected_transmitter_confidence < 1 →
      (PtpTracker.handle_message
          ⟨[(dreqX.header.source_port_identity.clock_identity, c5HostX)],
           [(dreqX.header.domain_number, [(testCI 2, 0)])], 0⟩
          (.DelayReq dreqX) testMeta 2500).stateOf
        dreqX.header.source_port_identity.clock_identity =
        some (.TimeReceiver
          { PtpHostStateTimeReceiver.default with
            selected_transmitter_identity := some (testCI 2)
            selected_transmitter_confidence :=
              ratClamp (((2500 - 0 : Nat) : ℚ) / 5000) 0 (9 / 10) })) :=
  C5_delay_req_guard_and_formula PtpHostStateTimeReceiver.default c5HostX
    [(testCI 2, 0)] (testCI 2) 0 2500 0 testMeta dreqX rfl rfl

/-! ## C3 -/

/-- The C3 transmitter host A (`...01`): priority1 64, remaining BMCA fields
from `base`. -/
def c3HostA (base : PtpHostStateTimeTransmitter) : PtpHost :=
  { PtpHost.new (testCI 1) 0 with
    domain_number := some 0
    state := .TimeTransmitter { base with priority1 := some 64 } }

/-- The C3 transmitter host B (`...02`): priority1 128, remaining BMCA fields
from `base`. -/
def c3HostB (base : PtpHostStateTimeTransmitter) : PtpHost :=
  { PtpHost.new (testCI 2) 0 with
    domain_number := some 0
    state := .TimeTransmitter { base with priority1 := some 128 } }

/-- C3: with exactly two transmitter-state hosts in domain 0 — A (`...01`)
with priority1 64, B (`...02`) with priority1 128, every other BMCA field
shared through `base` (quality fields present) — plus an arbitrary
receiver-state host R (`...03`) in domain 0, `run_bmca_election` marks A the
winner, clears B's flag, and forces R onto A with confidence 1.0. -/
theorem C3_two_transmitter_election
    (base : PtpHostStateTimeTransmitter) (rstate : PtpHostStateTimeReceiver)
    (hostR : PtpHost)
    (hp2 : base.priority2.isSome) (hcc : base.clock_class.isSome)
    (hca : base.clock_accuracy.isSome)
    (hvar : base.offset_scaled_log_variance.isSome)
    (hRdom : hostR.domain_number = some 0)
    (hRst : hostR.state = .TimeReceiver rstate) :
    (PtpTracker.run_bmca_election
        ⟨[(testCI 1, c3HostA base), (testCI 2, c3HostB base),
          (testCI 3, hostR)], [], 0⟩).stateOf (testCI 1) =
      some (.TimeTransmitter
        { base with priority1 := some 64, is_bmca_winner := true }) ∧
    (PtpTracker.run_bmca_election
        ⟨[(testCI 1, c3HostA base), (testCI 2, c3HostB base),
          (testCI 3, hostR)], [], 0⟩).stateOf (testCI 2) =
      some (.TimeTransmitter
        { base with priority1 := some 128, is_bmca_winner := false }) ∧
    (PtpTracker.run_bmca_election
        ⟨[(testCI 1, c3HostA base), (testCI 2, c3HostB base),
          (testCI 3, hostR)], [], 0⟩).stateOf (testCI 3) =
      some (.TimeReceiver
        { rstate with
          selected_transmitter_identity := some (testCI 1)
          selected_transmitter_confidence := 1 }) := by
  have hcmp : compare (128 : Nat) 64 = Ordering.gt :=
    Nat.compare_eq_gt.mpr (by norm_num)
  have e11 : (testCI 1 == testCI 1) = true := by decide
  have e22 : (testCI 2 == testCI 2) = true := by decide
  have e33 : (testCI 3 == testCI 3) = true := by decide
  have e12 : (testCI 1 == testCI 2) = false := by decide
  have e21 : (testCI 2 == testCI 1) = false := by decide
  have e13 : (testCI 1 == testCI 3) = false := by decide
  have e31 : (testCI 3 == testCI 1) = false := by decide
  have e23 : (testCI 2 == testCI 3) = false := by decide
  have e32 : (testCI 3 == testCI 2) = false := by decide
  refine ⟨?_, ?_, ?_⟩ <;>
    simp +decide [PtpTracker.run_bmca_election, groupTransmittersByDomain,
      assocSet, electDomain, resetWinners, findBestTransmitter, hostsUpdate,
      PtpTracker.update_receivers_for_domain, PtpTracker.stateOf,
      PtpHostStateTimeTransmitter.compare_for_bmca, bmcaCriterion,
      List.lookup, c3HostA, c3HostB, hcmp, hRdom, hRst,
      e11, e22, e33, e12, e21, e13, e31, e23, e32]

/-- The C3 witness transmitter base: complete quality fields (clock class 6,
accuracy 0x20, variance 0x4E5D, priority2 128). -/
def c3Base : PtpHostStateTimeTransmitter :=
  { PtpHostStateTimeTransmitter.default with
    priority2 := some 128
    clock_class := some 6
    clock_accuracy := some 32
    offset_scaled_log_variance := some 20061 }

/-- The C3 witness receiver host R (`...03`) in domain 0. -/
def c3HostR : PtpHost :=
  { PtpHost.new (testCI 3) 0 with
    domain_number := some 0
    state := .TimeReceiver PtpHostStateTimeReceiver.default }

/-- C3 witness: the concrete two-transmitter-plus-receiver election. -/
theorem C3_two_transmitter_election_witness :
    (PtpTracker.run_bmca_election
        ⟨[(testCI 1, c3HostA c3Base), (testCI 2, c3HostB c3Base),
          (testCI 3, c3HostR)], [], 0⟩).stateOf (testCI 1) =
      some (.TimeTransmitter
        { c3Base with priority1 := some 64, is_bmca_winner := true }) ∧
    (PtpTracker.run_bmca_election
        ⟨[(testCI 1, c3HostA c3Base), (testCI 2, c3HostB c3Base),
          (testCI 3, c3HostR)], [], 0⟩).stateOf (testCI 2) =
      some (.TimeTransmitter
        { c3Base with priority1 := some 128, is_bmca_winner := false }) ∧
    (PtpTracker.run_bmca_election
        ⟨[(testCI 1, c3HostA c3Base), (testCI 2, c3HostB c3Base),
          (testCI 3, c3HostR)], [], 0⟩).stateOf (testCI 3) =
      some (.TimeReceiver
        { PtpHostStateTimeReceiver.default with
          selected_transmitter_identity := some (testCI 1)
          selected_transmitter_confidence := 1 }) :=
  C3_two_transmitter_election c3Base PtpHostStateTimeReceiver.default c3HostR
    rfl rfl rfl rfl rfl rfl
